import Mathlib

/-!
Shallow embedding of the core transform pipeline of the anomaly-detection
dashboard (src/app.py, callback update_graph).  Dates are modelled as
natural numbers in YYYYMMDD form, which preserves the calendar order used
by the pandas comparisons; percentages and rates are modelled as rationals.
-/

/-- A row of the observed failure-rate dataset (latam_df). -/
structure ObservedPoint where
  date : Nat
  failure_pct : Rat
deriving DecidableEq

/-- A row of the ML-anomaly dataset (ml_df). -/
structure AnomalyPoint where
  date : Nat
  failure_pct : Rat
  ml_anomaly : Bool
deriving DecidableEq

/-- A row of the ARIMA forecast dataset (arima_df). -/
structure ForecastPoint where
  date : Nat
  forecast : Rat
  upper : Rat
  lower : Rat
deriving DecidableEq

/-- The three datasets loaded at startup. -/
structure DataStore where
  latam_df : List ObservedPoint
  ml_df : List AnomalyPoint
  arima_df : List ForecastPoint
deriving DecidableEq

/-- One plotly trace of the produced figure, keeping the fields the code
sets: name, x data, y data, mode, fill directive, legend flag. -/
structure Trace where
  name : Option String
  xs : List Nat
  ys : List Rat
  mode : Option String
  fill : Option String
  showlegend : Bool
deriving DecidableEq

/-- The impact-summary record rendered below the chart. -/
structure Summary where
  start_date : Nat
  end_date : Nat
  user_count : Nat
  fail_count : Nat
  fail_pct : Rat
  missed_revenue : Nat
  root_cause : String
deriving DecidableEq

/-- Row slice df[(df.date >= start) & (df.date <= end)] on the observed set. -/
def filterObserved (xs : List ObservedPoint) (s e : Nat) : List ObservedPoint :=
  xs.filter (fun p => decide (s ≤ p.date ∧ p.date ≤ e))

/-- Row slice on the forecast set (same boolean mask pattern). -/
def filterForecast (xs : List ForecastPoint) (s e : Nat) : List ForecastPoint :=
  xs.filter (fun p => decide (s ≤ p.date ∧ p.date ≤ e))

/-- Lower bound of the Black Friday spike window, 2025-01-25. -/
def spikeWindowLo : Nat := 20250125

/-- Upper bound of the Black Friday spike window, 2025-01-28. -/
def spikeWindowHi : Nat := 20250128

/-- Effect of df.loc[spike_mask, failure_pct] *= 2.5 on one row. -/
def spikePoint (p : ObservedPoint) : ObservedPoint :=
  if spikeWindowLo ≤ p.date ∧ p.date ≤ spikeWindowHi then
    { p with failure_pct := p.failure_pct * (2.5 : Rat) }
  else p

/-- The spike step of the callback: applied only when the checklist value
contains the token bf. -/
def applySpike (event_toggle : List String) (df : List ObservedPoint) :
    List ObservedPoint :=
  if ("bf") ∈ event_toggle then df.map spikePoint else df

/-- ml_df[(ml_df.ml_anomaly) & (date >= start) & (date <= end)]. -/
def mlAnomalySelect (ml_df : List AnomalyPoint) (s e : Nat) : List AnomalyPoint :=
  ml_df.filter (fun p => p.ml_anomaly && decide (s ≤ p.date) && decide (p.date ≤ e))

/-- The observed-series trace (gray lines+markers). -/
def observedTrace (df : List ObservedPoint) : Trace :=
  { name := some ("Failure %"), xs := df.map (fun p => p.date),
    ys := df.map (fun p => p.failure_pct), mode := some ("lines+markers"),
    fill := none, showlegend := true }

/-- The ML-anomaly marker trace. -/
def anomalyTrace (ps : List AnomalyPoint) : Trace :=
  { name := some ("ML Anomalies"), xs := ps.map (fun p => p.date),
    ys := ps.map (fun p => p.failure_pct), mode := some ("markers"),
    fill := none, showlegend := true }

/-- The central ARIMA forecast line (green dashed). -/
def forecastLineTrace (ps : List ForecastPoint) : Trace :=
  { name := some ("ARIMA Forecast"), xs := ps.map (fun p => p.date),
    ys := ps.map (fun p => p.forecast), mode := some ("lines"),
    fill := none, showlegend := true }

/-- The upper confidence bound, a zero-width unnamed line with no fill. -/
def forecastUpperTrace (ps : List ForecastPoint) : Trace :=
  { name := none, xs := ps.map (fun p => p.date),
    ys := ps.map (fun p => p.upper), mode := none,
    fill := none, showlegend := false }

/-- The lower confidence bound, filled to the previously emitted trace. -/
def forecastLowerTrace (ps : List ForecastPoint) : Trace :=
  { name := some ("Forecast CI"), xs := ps.map (fun p => p.date),
    ys := ps.map (fun p => p.lower), mode := none,
    fill := some ("tonexty"), showlegend := true }

/-- The forecast part of the figure: three traces when arima is chosen,
nothing otherwise. -/
def forecastTraces (store : DataStore) (forecast_choice : String) (s e : Nat) :
    List Trace :=
  if forecast_choice = "arima" then
    [forecastLineTrace (filterForecast store.arima_df s e),
     forecastUpperTrace (filterForecast store.arima_df s e),
     forecastLowerTrace (filterForecast store.arima_df s e)]
  else []

/-- The figure: observed trace, optional anomaly trace, optional
three-trace forecast band, in the emission order of the code. -/
def buildFig (df : List ObservedPoint) (store : DataStore)
    (forecast_choice anomaly_method : String) (s e : Nat) : List Trace :=
  observedTrace df ::
    ((if anomaly_method = "ml" then
        [anomalyTrace (mlAnomalySelect store.ml_df s e)]
      else []) ++ forecastTraces store forecast_choice s e)

/-- The simulated product impact summary at the end of update_graph. -/
def buildSummary (event_toggle : List String) (df : List ObservedPoint)
    (s e : Nat) : Summary :=
  let failure_days := df.filter (fun p => decide (p.failure_pct > 3))
  let user_count := df.length
  let fail_count := failure_days.length
  let fail_pct : Rat :=
    if user_count > 0 then ((fail_count : Rat) / (user_count : Rat)) * 100 else 0
  { start_date := s, end_date := e, user_count := user_count,
    fail_count := fail_count, fail_pct := fail_pct,
    missed_revenue := fail_count * 5700,
    root_cause :=
      if ("bf") ∉ event_toggle then
        "• Root cause: Deployment A41 + Gateway v3-latam-02 (injected)"
      else "• Spike simulated due to Black Friday" }

/-- The callback update_graph as a pure function from the data store and
the five inputs to the figure and the summary. -/
def update_graph (store : DataStore) (forecast_choice anomaly_method : String)
    (event_toggle : List String) (start_date end_date : Nat) :
    List Trace × Summary :=
  let df := applySpike event_toggle (filterObserved store.latam_df start_date end_date)
  (buildFig df store forecast_choice anomaly_method start_date end_date,
   buildSummary event_toggle df start_date end_date)

/-- State-passing form of one callback invocation: the module-level data
store is read, a copy of the observed frame is sliced and spiked, and the
store that the next invocation sees is returned alongside the outputs.
The body never writes a store field, mirroring latam_df.copy() and the
copying semantics of boolean-mask slicing in the source. -/
def update_graph_call (store : DataStore) (forecast_choice anomaly_method : String)
    (event_toggle : List String) (start_date end_date : Nat) :
    DataStore × (List Trace × Summary) :=
  (store, update_graph store forecast_choice anomaly_method event_toggle
    start_date end_date)

/-- Traces of a figure whose legend name is ML Anomalies. -/
def anomalyLayers (ts : List Trace) : List Trace :=
  ts.filter (fun t => decide (t.name = some ("ML Anomalies")))

/-- The Scenario A and B observed series: Jan 1 to Jan 31 2025, constant
failure_pct 2.0. -/
def janObserved : List ObservedPoint :=
  (List.range 31).map (fun i => { date := 20250101 + i, failure_pct := 2 })

lemma list_zip_map_self {α β : Type} (f : α → β) (l : List α) :
    l.zip (l.map f) = l.map (fun a => (a, f a)) := by
  induction l with
  | nil => rfl
  | cons a t ih => simp [ih]

/-- C1: when the spike is enabled, the output series has the same length as
the input and, position by position, a point whose date lies in the
inclusive window 2025-01-25 to 2025-01-28 keeps its date and has its
failure_pct multiplied by exactly 2.5, while a point outside the window is
returned unchanged; when the spike is disabled the output equals the
input. -/
theorem spike_simulator_spec (df : List ObservedPoint) (tog : List String) :
    (("bf") ∈ tog →
      (applySpike tog df).length = df.length ∧
      ∀ pq ∈ df.zip (applySpike tog df),
        (spikeWindowLo ≤ pq.1.date ∧ pq.1.date ≤ spikeWindowHi →
          pq.2.date = pq.1.date ∧
          pq.2.failure_pct = pq.1.failure_pct * (2.5 : Rat)) ∧
        (¬ (spikeWindowLo ≤ pq.1.date ∧ pq.1.date ≤ spikeWindowHi) →
          pq.2 = pq.1)) ∧
    (("bf") ∉ tog → applySpike tog df = df) := by
  constructor
  · intro h
    unfold applySpike
    rw [if_pos h]
    refine ⟨List.length_map df spikePoint, ?_⟩
    intro pq hpq
    rw [list_zip_map_self] at hpq
    obtain ⟨p, hp, rfl⟩ := List.mem_map.1 hpq
    constructor
    · intro hw
      unfold spikePoint
      rw [if_pos hw]
      exact ⟨rfl, rfl⟩
    · intro hw
      unfold spikePoint
      rw [if_neg hw]
  · intro h
    unfold applySpike
    rw [if_neg h]

theorem spike_simulator_spec_witness :
    (applySpike ["bf"] [{ date := 20250126, failure_pct := 2 },
        { date := 20250110, failure_pct := 4 }]).length
      = ([{ date := 20250126, failure_pct := 2 },
          { date := 20250110, failure_pct := 4 }] : List ObservedPoint).length ∧
    applySpike [] [{ date := 20250126, failure_pct := 2 }]
      = [{ date := 20250126, failure_pct := 2 }] :=
  ⟨((spike_simulator_spec [{ date := 20250126, failure_pct := 2 },
      { date := 20250110, failure_pct := 4 }] ["bf"]).1 (by decide)).1,
   (spike_simulator_spec [{ date := 20250126, failure_pct := 2 }] []).2 (by decide)⟩

/-- C2: the summary reports the record count, the count of records with
failure_pct strictly above 3, the percentage k/n*100 guarded to 0 on an
empty series, revenue 5700 per high-failure record, and the narrative
line chosen by the spike flag. -/
theorem impact_summary_spec (df : List ObservedPoint) (tog : List String)
    (s e : Nat) :
    (buildSummary tog df s e).user_count = df.length ∧
    (buildSummary tog df s e).fail_count
      = df.countP (fun p => decide (p.failure_pct > 3)) ∧
    (df.length = 0 → (buildSummary tog df s e).fail_pct = 0) ∧
    (0 < df.length →
      (buildSummary tog df s e).fail_pct
        = ((df.countP (fun p => decide (p.failure_pct > 3)) : Rat)
            / (df.length : Rat)) * 100) ∧
    (buildSummary tog df s e).missed_revenue
      = df.countP (fun p => decide (p.failure_pct > 3)) * 5700 ∧
    (("bf") ∈ tog →
      (buildSummary tog df s e).root_cause = "• Spike simulated due to Black Friday") ∧
    (("bf") ∉ tog →
      (buildSummary tog df s e).root_cause
        = "• Root cause: Deployment A41 + Gateway v3-latam-02 (injected)") := by
  refine ⟨rfl, ?_, ?_, ?_, ?_, ?_, ?_⟩
  · exact (List.countP_eq_length_filter _ df).symm
  · intro h
    simp [buildSummary, h]
  · intro h
    simp [buildSummary, h, List.countP_eq_length_filter]
  · rw [List.countP_eq_length_filter]
    rfl
  · intro h
    unfold buildSummary
    exact if_neg (fun hc => hc h)
  · intro h
    unfold buildSummary
    exact if_pos h

theorem impact_summary_spec_witness :
    (buildSummary ["bf"] [] 1 2).fail_pct = 0 ∧
    (buildSummary ["bf"] [] 1 2).root_cause = "• Spike simulated due to Black Friday" ∧
    (buildSummary [] [{ date := 7, failure_pct := 4 }] 1 2).fail_pct
      = ((([{ date := 7, failure_pct := 4 }] : List ObservedPoint).countP
            (fun p => decide (p.failure_pct > 3)) : Rat)
          / (([{ date := 7, failure_pct := 4 }] : List ObservedPoint).length : Rat)) * 100 ∧
    (buildSummary [] [{ date := 7, failure_pct := 4 }] 1 2).root_cause
      = "• Root cause: Deployment A41 + Gateway v3-latam-02 (injected)" :=
  ⟨(impact_summary_spec [] ["bf"] 1 2).2.2.1 rfl,
   (impact_summary_spec [] ["bf"] 1 2).2.2.2.2.2.1 (by decide),
   (impact_summary_spec [{ date := 7, failure_pct := 4 }] [] 1 2).2.2.2.1 (by decide),
   (impact_summary_spec [{ date := 7, failure_pct := 4 }] [] 1 2).2.2.2.2.2.2 (by decide)⟩

/-- C3: the range filter returns a subsequence of the input (order
preserved), every returned point lies in the inclusive bounds, a point
inside the bounds is kept with its full multiplicity, a point outside the
bounds never occurs, and inverted bounds give the empty sequence. -/
theorem range_filter_spec (xs : List ObservedPoint) (s e : Nat) :
    (filterObserved xs s e).Sublist xs ∧
    (∀ p ∈ filterObserved xs s e, s ≤ p.date ∧ p.date ≤ e) ∧
    (∀ p : ObservedPoint, s ≤ p.date ∧ p.date ≤ e →
      (filterObserved xs s e).count p = xs.count p) ∧
    (∀ p : ObservedPoint, ¬ (s ≤ p.date ∧ p.date ≤ e) →
      (filterObserved xs s e).count p = 0) ∧
    (e < s → filterObserved xs s e = []) := by
  refine ⟨List.filter_sublist xs, ?_, ?_, ?_, ?_⟩
  · intro p hp
    unfold filterObserved at hp
    have h2 := List.of_mem_filter hp
    simpa using h2
  · intro p hp
    exact List.count_filter (decide_eq_true hp)
  · intro p hp
    refine List.count_eq_zero.2 (fun hmem => ?_)
    unfold filterObserved at hmem
    have h2 := List.of_mem_filter hmem
    simp only [decide_eq_true_eq] at h2
    exact hp h2
  · intro h
    refine List.filter_eq_nil_iff.2 (fun p hp => ?_)
    simp only [decide_eq_true_eq, not_and, not_le]
    intro hs
    omega

theorem range_filter_spec_witness :
    ((filterObserved [{ date := 5, failure_pct := 1 }, { date := 10, failure_pct := 2 }] 4 6).count
        { date := 5, failure_pct := 1 }
      = ([{ date := 5, failure_pct := 1 }, { date := 10, failure_pct := 2 }] : List ObservedPoint).count
          { date := 5, failure_pct := 1 }) ∧
    ((filterObserved [{ date := 5, failure_pct := 1 }, { date := 10, failure_pct := 2 }] 4 6).count
        { date := 10, failure_pct := 2 } = 0) ∧
    filterObserved [{ date := 5, failure_pct := 1 }] 7 3 = [] :=
  ⟨(range_filter_spec [{ date := 5, failure_pct := 1 }, { date := 10, failure_pct := 2 }] 4 6).2.2.1
      { date := 5, failure_pct := 1 } (by decide),
   (range_filter_spec [{ date := 5, failure_pct := 1 }, { date := 10, failure_pct := 2 }] 4 6).2.2.2.1
      { date := 10, failure_pct := 2 } (by decide),
   (range_filter_spec [{ date := 5, failure_pct := 1 }] 7 3).2.2.2.2 (by decide)⟩

/-- C4: when the filtered observed series is empty, the summary of the
pipeline output reports zero records, zero high-failure records, a
percentage of exactly 0 and zero revenue; no division is attempted. -/
theorem empty_filter_summary_spec (store : DataStore) (f a : String)
    (tog : List String) (s e : Nat)
    (h : filterObserved store.latam_df s e = []) :
    (update_graph store f a tog s e).2.user_count = 0 ∧
    (update_graph store f a tog s e).2.fail_count = 0 ∧
    (update_graph store f a tog s e).2.fail_pct = 0 ∧
    (update_graph store f a tog s e).2.missed_revenue = 0 := by
  simp [update_graph, h, applySpike, buildSummary]

theorem empty_filter_summary_spec_witness :
    (update_graph { latam_df := [{ date := 5, failure_pct := 9 }], ml_df := [], arima_df := [] }
        "arima" "ml" ["bf"] 7 3).2.user_count = 0 ∧
    (update_graph { latam_df := [{ date := 5, failure_pct := 9 }], ml_df := [], arima_df := [] }
        "arima" "ml" ["bf"] 7 3).2.fail_count = 0 ∧
    (update_graph { latam_df := [{ date := 5, failure_pct := 9 }], ml_df := [], arima_df := [] }
        "arima" "ml" ["bf"] 7 3).2.fail_pct = 0 ∧
    (update_graph { latam_df := [{ date := 5, failure_pct := 9 }], ml_df := [], arima_df := [] }
        "arima" "ml" ["bf"] 7 3).2.missed_revenue = 0 :=
  empty_filter_summary_spec
    { latam_df := [{ date := 5, failure_pct := 9 }], ml_df := [], arima_df := [] }
    "arima" "ml" ["bf"] 7 3 (by decide)

/-- Concrete store used by witnesses: one flagged anomaly inside January
2025, one outside, one unflagged point. -/
def demoStore : DataStore :=
  { latam_df := [{ date := 20250110, failure_pct := 2 }],
    ml_df := [{ date := 20250110, failure_pct := 2, ml_anomaly := true },
              { date := 20250210, failure_pct := 6, ml_anomaly := true },
              { date := 20250111, failure_pct := 1, ml_anomaly := false }],
    arima_df := [{ date := 20250112, forecast := 2, upper := 3, lower := 1 }] }

/-- C5: with method ml the figure carries exactly one anomaly layer, whose
points are exactly the rows of the anomaly dataset that are flagged and
dated inside the active range; with method none the figure carries no
anomaly layer at all. -/
theorem anomaly_overlay_spec (store : DataStore) (f a : String)
    (tog : List String) (s e : Nat) :
    (a = "ml" →
      anomalyLayers (update_graph store f a tog s e).1
        = [anomalyTrace (mlAnomalySelect store.ml_df s e)] ∧
      ∀ p : AnomalyPoint,
        p ∈ mlAnomalySelect store.ml_df s e ↔
          p ∈ store.ml_df ∧ p.ml_anomaly = true ∧ s ≤ p.date ∧ p.date ≤ e) ∧
    (a = "none" → anomalyLayers (update_graph store f a tog s e).1 = []) := by
  constructor
  · intro ha
    subst ha
    constructor
    · unfold update_graph buildFig anomalyLayers forecastTraces
      by_cases hf : f = "arima" <;>
        simp [hf, observedTrace, anomalyTrace, forecastLineTrace,
          forecastUpperTrace, forecastLowerTrace, List.filter_append]
    · intro p
      simp [mlAnomalySelect, List.mem_filter, and_assoc]
  · intro ha
    subst ha
    unfold update_graph buildFig anomalyLayers forecastTraces
    by_cases hf : f = "arima" <;>
      simp [hf, observedTrace, forecastLineTrace, forecastUpperTrace,
        forecastLowerTrace, List.filter_append]

theorem anomaly_overlay_spec_witness :
    anomalyLayers (update_graph demoStore "arima" "ml" [] 20250101 20250131).1
      = [anomalyTrace (mlAnomalySelect demoStore.ml_df 20250101 20250131)] ∧
    anomalyLayers (update_graph demoStore "arima" "none" [] 20250101 20250131).1 = [] :=
  ⟨((anomaly_overlay_spec demoStore "arima" "ml" [] 20250101 20250131).1 rfl).1,
   (anomaly_overlay_spec demoStore "arima" "none" [] 20250101 20250131).2 rfl⟩

/-- C6: choosing arima appends exactly three layers, in order the central
forecast line, the upper bound, then the lower bound carrying the tonexty
fill, after the figure that the choice none would produce; choosing none
emits no forecast layer, leaving only the observed trace and the optional
anomaly layer. -/
theorem forecast_overlay_spec (store : DataStore) (f a : String)
    (tog : List String) (s e : Nat) :
    (f = "arima" →
      (update_graph store f a tog s e).1
        = (update_graph store "none" a tog s e).1
            ++ [forecastLineTrace (filterForecast store.arima_df s e),
                forecastUpperTrace (filterForecast store.arima_df s e),
                forecastLowerTrace (filterForecast store.arima_df s e)] ∧
      (forecastUpperTrace (filterForecast store.arima_df s e)).fill = none ∧
      (forecastLowerTrace (filterForecast store.arima_df s e)).fill
        = some ("tonexty")) ∧
    (f = "none" →
      forecastTraces store f s e = [] ∧
      (update_graph store f a tog s e).1
        = observedTrace (applySpike tog (filterObserved store.latam_df s e))
            :: (if a = "ml" then [anomalyTrace (mlAnomalySelect store.ml_df s e)]
                else [])) := by
  constructor
  · intro hf
    subst hf
    refine ⟨?_, rfl, rfl⟩
    unfold update_graph buildFig forecastTraces
    simp
  · intro hf
    subst hf
    refine ⟨rfl, ?_⟩
    unfold update_graph buildFig forecastTraces
    simp

theorem forecast_overlay_spec_witness :
    ((update_graph demoStore "arima" "ml" [] 20250101 20250131).1
       = (update_graph demoStore "none" "ml" [] 20250101 20250131).1
           ++ [forecastLineTrace (filterForecast demoStore.arima_df 20250101 20250131),
               forecastUpperTrace (filterForecast demoStore.arima_df 20250101 20250131),
               forecastLowerTrace (filterForecast demoStore.arima_df 20250101 20250131)]) ∧
    forecastTraces demoStore "none" 20250101 20250131 = [] :=
  ⟨((forecast_overlay_spec demoStore "arima" "ml" [] 20250101 20250131).1 rfl).1,
   ((forecast_overlay_spec demoStore "none" "ml" [] 20250101 20250131).2 rfl).1⟩

/-- C7: on the January 2025 series at constant 2.0 with the full month
selected, the summary without the spike is 31 records, 0 high-failure
records, 0 percent and zero revenue with the placeholder narrative; with
the spike the four days Jan 25 to Jan 28 become 5.0, giving 4 high-failure
records, a percentage of 400/31 (about 12.9), revenue 22800 and the
spike-simulated narrative. -/
theorem scenario_end_to_end :
    ((update_graph { latam_df := janObserved, ml_df := [], arima_df := [] }
        "none" "none" [] 20250101 20250131).2.user_count = 31 ∧
     (update_graph { latam_df := janObserved, ml_df := [], arima_df := [] }
        "none" "none" [] 20250101 20250131).2.fail_count = 0 ∧
     (update_graph { latam_df := janObserved, ml_df := [], arima_df := [] }
        "none" "none" [] 20250101 20250131).2.fail_pct = 0 ∧
     (update_graph { latam_df := janObserved, ml_df := [], arima_df := [] }
        "none" "none" [] 20250101 20250131).2.missed_revenue = 0 ∧
     (update_graph { latam_df := janObserved, ml_df := [], arima_df := [] }
        "none" "none" [] 20250101 20250131).2.root_cause
       = "• Root cause: Deployment A41 + Gateway v3-latam-02 (injected)") ∧
    ((update_graph { latam_df := janObserved, ml_df := [], arima_df := [] }
        "none" "none" ["bf"] 20250101 20250131).2.user_count = 31 ∧
     (update_graph { latam_df := janObserved, ml_df := [], arima_df := [] }
        "none" "none" ["bf"] 20250101 20250131).2.fail_count = 4 ∧
     (update_graph { latam_df := janObserved, ml_df := [], arima_df := [] }
        "none" "none" ["bf"] 20250101 20250131).2.fail_pct = (400 : Rat) / 31 ∧
     |(update_graph { latam_df := janObserved, ml_df := [], arima_df := [] }
        "none" "none" ["bf"] 20250101 20250131).2.fail_pct - (129 : Rat) / 10|
       ≤ (1 : Rat) / 20 ∧
     (update_graph { latam_df := janObserved, ml_df := [], arima_df := [] }
        "none" "none" ["bf"] 20250101 20250131).2.missed_revenue = 22800 ∧
     (update_graph { latam_df := janObserved, ml_df := [], arima_df := [] }
        "none" "none" ["bf"] 20250101 20250131).2.root_cause
       = "• Spike simulated due to Black Friday" ∧
     List.map (fun p => p.date)
        (List.filter (fun p => decide (p.failure_pct = 5))
          (applySpike ["bf"] (filterObserved janObserved 20250101 20250131)))
       = [20250125, 20250126, 20250127, 20250128]) := by
  with_unfolding_all decide

/-- C8: an invocation of the pipeline hands the data store on unchanged,
and a second invocation on the store left by the first returns exactly the
same store and outputs as the first, so repeated spiked runs are never
cumulative. -/
theorem datastore_immutability (store : DataStore) (f a : String)
    (tog : List String) (s e : Nat) :
    (update_graph_call store f a tog s e).1 = store ∧
    update_graph_call (update_graph_call store f a tog s e).1 f a tog s e
      = update_graph_call store f a tog s e :=
  ⟨rfl, rfl⟩

/-- C9: the summary half of the pipeline output does not depend on the
forecast-overlay choice or the anomaly-method choice. -/
theorem summary_noninterference (store : DataStore) (f1 a1 f2 a2 : String)
    (tog : List String) (s e : Nat) :
    (update_graph store f1 a1 tog s e).2 = (update_graph store f2 a2 tog s e).2 :=
  rfl

/-- C10: the anomaly layers of the figure are the same whatever the spike
toggle holds, because their data comes from the anomaly dataset and not
from the spiked observed series. -/
theorem anomaly_overlay_spike_independence (store : DataStore) (f a : String)
    (tog tog2 : List String) (s e : Nat) :
    anomalyLayers (update_graph store f a tog s e).1
      = anomalyLayers (update_graph store f a tog2 s e).1 := by
  rfl
